import Mathlib

/-!
Verification of the rumbex SMB adapter (src/native/rumbex_smb_native/src/lib.rs)
against its natural-language specification.

The Rust NIF module is shallowly embedded: the protocol client (the external
`smb` crate) is modelled as an oracle of typed request/response functions, and
every caller-visible operation is translated into a Lean function that returns
both its result and the ordered list of protocol-level events (lock
acquisition, create/open requests, reads, writes, metadata queries) it issues.
Machine integers (u32/u64) are modelled as Nat; the only u64 operations used by
the source (division by a constant and `saturating_sub`) coincide with Nat
division and truncated subtraction on all inputs, so no explicit `% 2^64` is
needed.  `u32::from_str_radix` is modelled with its overflow check (`< 2^32`).
-/

deriving instance DecidableEq for Except

namespace Rumbex

/-! ### Time translator: `filetime_to_unix_seconds` (lib.rs lines 96-102)

Rust source:
  if ticks == 0 { return 0; }
  const EPOCH_DELTA: u64 = 11_644_473_600;
  let secs = ticks / 10_000_000;
  secs.saturating_sub(EPOCH_DELTA)

Nat truncated subtraction is exactly u64 `saturating_sub`, and `ticks / 10^7`
never exceeds the input, so the Nat embedding agrees with the u64 code on every
input below 2^64. -/
def filetime_to_unix_seconds (ticks : Nat) : Nat :=
  if ticks = 0 then 0 else ticks / 10000000 - 11644473600

/-! ### Status translator: `ntstatus_from_err_display` (lib.rs lines 88-93)

Rust source:
  let s = e.to_string();
  let start = s.find("(0x")?;
  let hex   = &s[start+3..].trim_end_matches(')');
  u32::from_str_radix(hex, 16).ok()

`afterMarker` models `s.find("(0x")` followed by slicing off the marker: it
returns the suffix of the character list that follows the first occurrence of
the three characters `(0x`, or `none` when there is no occurrence. -/
def afterMarker : List Char → Option (List Char)
  | c₁ :: c₂ :: c₃ :: tail =>
      if c₁ = '(' ∧ c₂ = '0' ∧ c₃ = 'x' then some tail
      else afterMarker (c₂ :: c₃ :: tail)
  | _ => none

/-- Model of Rust `str::trim_end_matches(')')`: removes every trailing `)`. -/
def trimEndRParens (l : List Char) : List Char :=
  (l.reverse.dropWhile fun c => c = ')').reverse

/-- The characters accepted by `char::to_digit(16)`, as used by
`u32::from_str_radix(_, 16)`. -/
def isHexDigitCh (c : Char) : Bool :=
  ('0' ≤ c && c ≤ '9') || ('a' ≤ c && c ≤ 'f') || ('A' ≤ c && c ≤ 'F')

/-- Numeric value of a hex digit (undefined garbage off the hex range; only
ever used under `isHexDigitCh`). -/
def hexDigitVal (c : Char) : Nat :=
  if '0' ≤ c ∧ c ≤ '9' then c.toNat - '0'.toNat
  else if 'a' ≤ c ∧ c ≤ 'f' then c.toNat - 'a'.toNat + 10
  else c.toNat - 'A'.toNat + 10

/-- Value of a hex digit string, most significant digit first. -/
def hexListVal (l : List Char) : Nat :=
  l.foldl (fun acc c => acc * 16 + hexDigitVal c) 0

/-- Digit-part of `u32::from_str_radix(_, 16)` after the optional sign has been
stripped: fails on an empty body, on any non-hex-digit character, and (for a
non-negative parse) on overflow past `u32::MAX`; a negative sign only admits
the value zero (Rust parses `-0` as `Ok(0)` for unsigned types). -/
def fromDigits16 (body : List Char) (neg : Bool) : Option Nat :=
  if body = [] then none
  else if body.all isHexDigitCh then
    if neg then (if hexListVal body = 0 then some 0 else none)
    else if hexListVal body < 4294967296 then some (hexListVal body) else none
  else none

/-- Model of `u32::from_str_radix(s, 16).ok()`: optional leading `+`/`-` sign,
then hex digits. -/
def fromStrRadix16 (l : List Char) : Option Nat :=
  match l with
  | [] => none
  | c :: rest =>
      if c = '+' then fromDigits16 rest false
      else if c = '-' then fromDigits16 rest true
      else fromDigits16 l false

/-- `ntstatus_from_err_display` over the textual rendering of an error
(lib.rs lines 88-93). -/
def ntstatus_from_err_display (s : String) : Option Nat :=
  match afterMarker s.toList with
  | none => none
  | some rest => fromStrRadix16 (trimEndRParens rest)

/-! ### Path-resolution helpers

Each NIF builds its full UNC path with some combination of
`trim_start_matches(['\\', '/'])`, `trim_matches(['\\', '/'])`,
`trim_end_matches('\\')` and `format!(r"{}\{}", base, rel)`. -/

def isSep (c : Char) : Bool := c = '\\' || c = '/'

/-- `trim_start_matches(['\\', '/'])`. -/
def trimStartSeps (s : String) : String := ⟨s.toList.dropWhile isSep⟩

/-- `trim_end_matches(['\\', '/'])`. -/
def trimEndSeps (s : String) : String := ⟨(s.toList.reverse.dropWhile isSep).reverse⟩

/-- `trim_matches(['\\', '/'])` (also: `trim_start_matches` then
`trim_end_matches`, the order used by `mkdir_p`). -/
def trimBothSeps (s : String) : String := trimEndSeps (trimStartSeps s)

/-- `trim_end_matches('\\')` as applied to the share root before joining. -/
def trimEndBS (s : String) : String :=
  ⟨(s.toList.reverse.dropWhile fun c => c = '\\').reverse⟩

/-- `format!(r"{}\{}", base.trim_end_matches('\\'), rel)`. -/
def joinShare (base rel : String) : String := trimEndBS base ++ "\\" ++ rel

/-- Rust `str::split(|c| c == '\\' || c == '/')` on a character list: fields
between separator characters, empty fields included (an empty input yields one
empty field). -/
def splitSeps : List Char → List (List Char)
  | [] => [[]]
  | c :: rest =>
      if isSep c then [] :: splitSeps rest
      else
        match splitSeps rest with
        | [] => [[c]]
        | f :: fs => (c :: f) :: fs

/-- Path splitting on either separator, as `mkdir_p` iterates it. -/
def splitPath (s : String) : List String := (splitSeps s.toList).map String.mk

/-- Whether two consecutive dots occur anywhere in the character list. -/
def hasDD : List Char → Bool
  | c₁ :: c₂ :: rest =>
      if c₁ = '.' ∧ c₂ = '.' then true else hasDD (c₂ :: rest)
  | _ => false

/-- Whether the substring `..` occurs in a string. -/
def strHasDD (s : String) : Bool := hasDD s.toList

/-! ### The protocol model

`smb::resource::Resource` is a tagged handle; the source matches `File` and
`Directory` and lumps every other variant into a wildcard arm, modelled here as
`other`. -/

inductive Kind
  | file
  | dir
deriving DecidableEq, Repr

inductive ResTag
  | file
  | dir
  | other
deriving DecidableEq, Repr

/-- Create dispositions actually used by the source: `make_open_existing`,
`make_create_new`, the `OpenIf` override in `mkdir_p`, and `make_overwrite`. -/
inductive Disposition
  | openExisting
  | createNew
  | openIf
  | overwrite
deriving DecidableEq, Repr

/-- The `CreateOptions` bits the source sets (all others stay default/false). -/
structure CreateOptions where
  directoryFile : Bool
  nonDirectoryFile : Bool
  deleteOnClose : Bool
deriving DecidableEq, Repr

/-- The `FileAccessMask` bits the source sets. -/
structure AccessMask where
  genericRead : Bool
  genericWrite : Bool
  delete : Bool
deriving DecidableEq, Repr

/-- The observable content of a `FileCreateArgs` value as built by the NIFs. -/
structure FileCreateArgs where
  disposition : Disposition
  options : CreateOptions
  desiredAccess : AccessMask
  attrsDirectory : Bool
deriving DecidableEq, Repr

def optsNone : CreateOptions := ⟨false, false, false⟩
def accessRead : AccessMask := ⟨true, false, false⟩
def accessRW : AccessMask := ⟨true, true, false⟩
def accessDeleteRW : AccessMask := ⟨true, true, true⟩

/-- `FileCreateArgs::make_open_existing(generic_read)` with default options —
used by `read_file`, `list_dir`, `stat`, and (with options reset to default)
by `open_for_kind`. -/
def openReadArgs : FileCreateArgs := ⟨.openExisting, optsNone, accessRead, false⟩

/-- The args `open_for_kind` probes with (identical content to
`openReadArgs`; lib.rs lines 71-75). -/
def probeArgs : FileCreateArgs := openReadArgs

/-- `write_file`: `make_overwrite(default attrs, default options)` with
read+write access (lib.rs lines 183-184). -/
def writeArgs : FileCreateArgs := ⟨.overwrite, optsNone, accessRW, false⟩

/-- `mkdir`: `make_create_new(directory attrs, directory_file option)` with
read+write access (lib.rs lines 393-400). -/
def mkdirArgs : FileCreateArgs := ⟨.createNew, ⟨true, false, false⟩, accessRW, true⟩

/-- `mkdir_p`: same as `mkdir` but disposition overridden to `OpenIf`
(lib.rs lines 351-359). -/
def mkdirPArgs : FileCreateArgs := ⟨.openIf, ⟨true, false, false⟩, accessRW, true⟩

/-- `rm`: open-existing with delete+read+write access, delete-on-close, and the
directory/non-directory option matching the probed kind (lib.rs 461-473). -/
def rmArgs : Kind → FileCreateArgs
  | .dir => ⟨.openExisting, ⟨true, false, true⟩, accessDeleteRW, false⟩
  | .file => ⟨.openExisting, ⟨false, true, true⟩, accessDeleteRW, false⟩

/-- `file_stats` second open: read access with the directory/non-directory
option matching the probed kind (lib.rs 528-533). -/
def statsOpenArgs : Kind → FileCreateArgs
  | .dir => ⟨.openExisting, ⟨true, false, false⟩, accessRead, false⟩
  | .file => ⟨.openExisting, ⟨false, true, false⟩, accessRead, false⟩

/-- `rename` first attempt: non-directory option (lib.rs 628-644). -/
def renameFileArgs : FileCreateArgs := ⟨.openExisting, ⟨false, true, false⟩, accessDeleteRW, false⟩

/-- `rename` second attempt: directory option (lib.rs 656). -/
def renameDirArgs : FileCreateArgs := ⟨.openExisting, ⟨true, false, false⟩, accessDeleteRW, false⟩

/-- `FileBasicInformation` fields read by `file_stats`; timestamps are FILETIME
ticks, `fileAttributes` the little-endian attribute bitmask as a number. -/
structure FileBasicInformation where
  creationTime : Nat
  lastAccessTime : Nat
  lastWriteTime : Nat
  changeTime : Nat
  fileAttributes : Nat
deriving DecidableEq, Repr

/-- `FileStandardInformation` fields read by `file_stats`. -/
structure FileStandardInformation where
  allocationSize : Nat
  endOfFile : Nat
  numberOfLinks : Nat
deriving DecidableEq, Repr

/-- `FileRenameInformation2` as built by `rename` (lib.rs 637-641). -/
structure FileRenameInformation2 where
  replaceIfExists : Bool
  rootDirectory : Nat
  fileName : String
deriving DecidableEq, Repr

/-- One decoded directory-listing record (`FileIdFullDirectoryInformation`
restricted to the fields `list_dir` reads). -/
structure DirEntry where
  fileName : String
  attrsDirectory : Bool
deriving DecidableEq, Repr

/-- Protocol-level events an operation can issue, in order.  `lock` is the
acquisition (attempt) of the connection mutex; the others are round trips on
the underlying client. -/
inductive Event
  | lock
  | createFile (path : String) (args : FileCreateArgs)
  | readAll (path : String)
  | writeAll (path : String) (data : List Nat)
  | queryDirectory (path : String) (pattern : String)
  | queryBasic (path : String)
  | queryStandard (path : String)
  | setRenameInfo (path : String) (info : FileRenameInformation2)
deriving DecidableEq, Repr

/-- Rustler-level error shape: `rustler::Error::BadArg` or
`rustler::Error::Term(Box::new(msg))`. -/
inductive NifError
  | badArg
  | term (msg : String)
deriving DecidableEq, Repr

/-- A connection together with the behaviour of the external protocol client,
modelled as an oracle.  `createFile`'s error value is the `Display` rendering
of the client error (what `format!("...: {e}")` and the status translator
see).  `uncOk` tells whether `UncPath::from_str` accepts a full path (the
`smb` crate's parser is external to the repository).  `poisoned` makes the
connection mutex fail (`mutex_poisoned`). -/
structure Conn where
  poisoned : Bool
  shareStr : String
  uncOk : String → Bool
  createFile : String → FileCreateArgs → Except String ResTag
  readAllFn : String → Except String (List Nat)
  writeAllFn : String → List Nat → Except String Unit
  allocOk : Nat → Bool
  queryDirFn : String → Except String (List (Except Unit DirEntry))
  queryBasicFn : String → Except String FileBasicInformation
  queryStdFn : String → Except String FileStandardInformation
  setInfoFn : String → FileRenameInformation2 → Except String Unit

/-! ### Resource kind prober: `open_for_kind` (lib.rs lines 70-86) -/

/-- Opens with generic-read access and default options; classifies the handle
tag: `File`/`Directory` map to a kind, any other tag and any open failure map
to `none` ("absent"). -/
def open_for_kind (conn : Conn) (unc : String) : Option Kind :=
  match conn.createFile unc probeArgs with
  | .ok .file => some .file
  | .ok .dir => some .dir
  | .ok .other => none
  | .error _ => none

/-! ### Operation handlers (the NIFs)

Each returns its rustler-level result together with the ordered event trace. -/

/-- `read_file` after the open succeeded: convert to a file (else
`not_a_file`), read to end (`smb_read_failed`), allocate the output binary
(`alloc_failed`).  (lib.rs lines 151-164) -/
def readFileAfterOpen (conn : Conn) (full : String) (tag : ResTag) :
    Except NifError (List Nat) × List Event :=
  match tag with
  | .file =>
      match conn.readAllFn full with
      | .error e => (.error (.term ("smb_read_failed: " ++ e)), [.readAll full])
      | .ok buf =>
          if conn.allocOk buf.length then (.ok buf, [.readAll full])
          else (.error (.term "alloc_failed"), [.readAll full])
  | _ => (.error (.term "not_a_file"), [])

/-- `read_file` (lib.rs lines 129-165): trims leading separators only, joins
onto the share root, parses the UNC (`BadArg` on failure), locks, opens for
generic read under open-existing disposition. -/
def read_file (conn : Conn) (pathInShare : String) :
    Except NifError (List Nat) × List Event :=
  let rel := trimStartSeps pathInShare
  let base := conn.shareStr
  let full := if rel = "" then base else joinShare base rel
  if conn.uncOk full = false then (.error .badArg, [])
  else if conn.poisoned then (.error (.term "mutex_poisoned"), [.lock])
  else
    match conn.createFile full openReadArgs with
    | .error e =>
        (.error (.term ("smb_open_failed: " ++ e)), [.lock, .createFile full openReadArgs])
    | .ok tag =>
        let r := readFileAfterOpen conn full tag
        (r.1, .lock :: .createFile full openReadArgs :: r.2)

/-- `write_file` after the open succeeded (lib.rs lines 192-199). -/
def writeFileAfterOpen (conn : Conn) (full : String) (tag : ResTag) (data : List Nat) :
    Except NifError Unit × List Event :=
  match tag with
  | .file =>
      match conn.writeAllFn full data with
      | .error e => (.error (.term ("smb_write_failed: " ++ e)), [.writeAll full data])
      | .ok _ => (.ok (), [.writeAll full data])
  | _ => (.error (.term "not_a_file"), [])

/-- `write_file` (lib.rs lines 167-200): same resolution as `read_file`
(leading separators only), then overwrite-or-create with read+write access. -/
def write_file (conn : Conn) (pathInShare : String) (data : List Nat) :
    Except NifError Unit × List Event :=
  let rel := trimStartSeps pathInShare
  let base := conn.shareStr
  let full := if rel = "" then base else joinShare base rel
  if conn.uncOk full = false then (.error .badArg, [])
  else if conn.poisoned then (.error (.term "mutex_poisoned"), [.lock])
  else
    match conn.createFile full writeArgs with
    | .error e =>
        (.error (.term ("smb_create_failed: " ++ e)), [.lock, .createFile full writeArgs])
    | .ok tag =>
        let r := writeFileAfterOpen conn full tag data
        (r.1, .lock :: .createFile full writeArgs :: r.2)

/-- The entry filter/classifier of `list_dir` (lib.rs lines 244-263):
undecodable records are skipped, `.` and `..` are skipped, the rest are
classified by the directory attribute bit. -/
def listEntries : List (Except Unit DirEntry) → List (String × Kind)
  | [] => []
  | .error _ :: rest => listEntries rest
  | .ok info :: rest =>
      if info.fileName = "." ∨ info.fileName = ".." then listEntries rest
      else (info.fileName, if info.attrsDirectory then Kind.dir else Kind.file) :: listEntries rest

/-- `list_dir` (lib.rs lines 202-266): trims both ends, opens for generic
read, requires a directory handle, enumerates with the `*` wildcard. -/
def list_dir (conn : Conn) (pathInShare : String) :
    Except NifError (List (String × Kind)) × List Event :=
  let rel := trimBothSeps pathInShare
  let base := conn.shareStr
  let full := if rel = "" then base else joinShare base rel
  if conn.uncOk full = false then (.error .badArg, [])
  else if conn.poisoned then (.error (.term "mutex_poisoned"), [.lock])
  else
    match conn.createFile full openReadArgs with
    | .error e =>
        (.error (.term ("smb_open_failed: " ++ e)), [.lock, .createFile full openReadArgs])
    | .ok .dir =>
        match conn.queryDirFn full with
        | .error e =>
            (.error (.term ("query_failed: " ++ e)),
              [.lock, .createFile full openReadArgs, .queryDirectory full "*"])
        | .ok items =>
            (.ok (listEntries items),
              [.lock, .createFile full openReadArgs, .queryDirectory full "*"])
    | .ok _ => (.error (.term "not_a_directory"), [.lock, .createFile full openReadArgs])

/-- `stat` (lib.rs lines 268-314): trims leading separators, opens for read;
a file handle is read to the end and its length reported with
`isDirectory = false`; any other handle reports `(0, true)`. -/
def stat (conn : Conn) (pathInShare : String) :
    Except NifError (Nat × Bool) × List Event :=
  let rel := trimStartSeps pathInShare
  let base := conn.shareStr
  let full := if rel = "" then base else joinShare base rel
  if conn.uncOk full = false then (.error .badArg, [])
  else if conn.poisoned then (.error (.term "mutex_poisoned"), [.lock])
  else
    match conn.createFile full openReadArgs with
    | .error e =>
        (.error (.term ("smb_open_failed: " ++ e)), [.lock, .createFile full openReadArgs])
    | .ok .file =>
        match conn.readAllFn full with
        | .error e =>
            (.error (.term ("smb_read_failed: " ++ e)),
              [.lock, .createFile full openReadArgs, .readAll full])
        | .ok buf =>
            (.ok (buf.length, false), [.lock, .createFile full openReadArgs, .readAll full])
    | .ok _ => (.ok (0, true), [.lock, .createFile full openReadArgs])

/-- The segment walk of `mkdir_p` (lib.rs lines 339-364): skip empty and `.`
segments, fail on `..` when it is reached, otherwise extend the accumulated
path, parse it (`BadArg` on failure) and issue an `OpenIf` create-directory
request (`mkdir_failed` on error). -/
def mkdirPLoop (conn : Conn) (acc : String) : List String → Except NifError Unit × List Event
  | [] => (.ok (), [])
  | seg :: rest =>
      if seg = "" ∨ seg = "." then mkdirPLoop conn acc rest
      else if seg = ".." then (.error (.term "bad_segment: \x27..\x27"), [])
      else
        let acc2 := joinShare acc seg
        if conn.uncOk acc2 = false then (.error .badArg, [])
        else
          match conn.createFile acc2 mkdirPArgs with
          | .error e => (.error (.term ("mkdir_failed: " ++ e)), [.createFile acc2 mkdirPArgs])
          | .ok _ =>
              let r := mkdirPLoop conn acc2 rest
              (r.1, .createFile acc2 mkdirPArgs :: r.2)

/-- `mkdir_p` (lib.rs lines 316-367): trims both ends; an empty resolved path
is a no-op success before the lock is taken; otherwise locks and walks the
segments starting from the share root. -/
def mkdir_p (conn : Conn) (relPath : String) : Except NifError Unit × List Event :=
  let rel := trimBothSeps relPath
  if rel = "" then (.ok (), [])
  else if conn.poisoned then (.error (.term "mutex_poisoned"), [.lock])
  else
    let r := mkdirPLoop conn conn.shareStr (splitPath rel)
    (r.1, .lock :: r.2)

/-- `mkdir` (lib.rs lines 369-406): trims both ends, rejects the empty path
with `bad_path` before anything else, then issues one create-new request. -/
def mkdir (conn : Conn) (relPath : String) : Except NifError Unit × List Event :=
  let rel := trimBothSeps relPath
  if rel = "" then (.error (.term "bad_path"), [])
  else
    let full := joinShare conn.shareStr rel
    if conn.uncOk full = false then (.error .badArg, [])
    else if conn.poisoned then (.error (.term "mutex_poisoned"), [.lock])
    else
      match conn.createFile full mkdirArgs with
      | .ok _ => (.ok (), [.lock, .createFile full mkdirArgs])
      | .error e => (.error (.term ("mkdir_failed: " ++ e)), [.lock, .createFile full mkdirArgs])

inductive ExTag
  | file
  | directory
  | notFound
deriving DecidableEq, Repr

/-- `exists` (lib.rs lines 408-431; named `existsOp` because `exists` is
reserved in Lean): an empty trimmed path reports `directory` with no round
trip; otherwise the prober's classification is returned. -/
def existsOp (conn : Conn) (pathInShare : String) : Except NifError ExTag × List Event :=
  let rel := trimBothSeps pathInShare
  if rel = "" then (.ok .directory, [])
  else
    let full := joinShare conn.shareStr rel
    if conn.uncOk full = false then (.error .badArg, [])
    else if conn.poisoned then (.error (.term "mutex_poisoned"), [.lock])
    else
      let out := match open_for_kind conn full with
        | some .file => ExTag.file
        | some .dir => ExTag.directory
        | none => ExTag.notFound
      (.ok out, [.lock, .createFile full probeArgs])

/-- `rm` (lib.rs lines 433-496): rejects the empty path with `bad_path`;
probes the kind (absent means immediate success); opens with delete-on-close;
on open failure classifies the parsed NTSTATUS: not-found (0xC0000034) and
delete-pending (0xC0000056) become success, directory-not-empty (0xC0000101)
becomes `dir_not_empty`, everything else (including an unparsable status)
becomes `rm_failed`. -/
def rm (conn : Conn) (pathInShare : String) : Except NifError Unit × List Event :=
  let rel := trimBothSeps pathInShare
  if rel = "" then (.error (.term "bad_path"), [])
  else
    let full := joinShare conn.shareStr rel
    if conn.uncOk full = false then (.error .badArg, [])
    else if conn.poisoned then (.error (.term "mutex_poisoned"), [.lock])
    else
      match open_for_kind conn full with
      | none => (.ok (), [.lock, .createFile full probeArgs])
      | some k =>
          match conn.createFile full (rmArgs k) with
          | .ok _ => (.ok (), [.lock, .createFile full probeArgs, .createFile full (rmArgs k)])
          | .error e =>
              let evs := [Event.lock, .createFile full probeArgs, .createFile full (rmArgs k)]
              match ntstatus_from_err_display e with
              | some code =>
                  if code = 0xC0000034 ∨ code = 0xC0000056 then (.ok (), evs)
                  else if code = 0xC0000101 then (.error (.term "dir_not_empty"), evs)
                  else (.error (.term ("rm_failed: " ++ e)), evs)
              | none => (.error (.term ("rm_failed: " ++ e)), evs)

/-- The rich stats record (`RichStats`, lib.rs lines 44-55), with FILETIME
fields already converted to Unix seconds. -/
structure RichStats where
  kind : Kind
  size : Nat
  allocationSize : Nat
  nlink : Nat
  attributes : Nat
  mtime : Nat
  atime : Nat
  ctime : Nat
  btime : Nat
deriving DecidableEq, Repr

inductive StatsOut
  | stats (s : RichStats)
  | notFound
deriving DecidableEq, Repr

/-- Assembles `RichStats` from the two metadata queries (lib.rs 543-595). -/
def mkRichStats (k : Kind) (basic : FileBasicInformation) (stdi : FileStandardInformation) :
    RichStats :=
  { kind := k
    size := stdi.endOfFile
    allocationSize := stdi.allocationSize
    nlink := stdi.numberOfLinks
    attributes := basic.fileAttributes
    mtime := filetime_to_unix_seconds basic.lastWriteTime
    atime := filetime_to_unix_seconds basic.lastAccessTime
    ctime := filetime_to_unix_seconds basic.changeTime
    btime := filetime_to_unix_seconds basic.creationTime }

/-- `file_stats` after the second open succeeded: the probed kind selects the
conversion (file vs directory handle), then the two metadata queries run
against the handle (lib.rs lines 543-582). -/
def fileStatsAfterOpen (conn : Conn) (full : String) (k : Kind) (tag : ResTag) :
    Except NifError RichStats × List Event :=
  match k, tag with
  | .file, .file =>
      match conn.queryBasicFn full with
      | .error e => (.error (.term ("query_basic_failed: " ++ e)), [.queryBasic full])
      | .ok basic =>
          match conn.queryStdFn full with
          | .error e =>
              (.error (.term ("query_standard_failed: " ++ e)), [.queryBasic full, .queryStandard full])
          | .ok stdi => (.ok (mkRichStats .file basic stdi), [.queryBasic full, .queryStandard full])
  | .dir, .dir =>
      match conn.queryBasicFn full with
      | .error e => (.error (.term ("query_basic_failed: " ++ e)), [.queryBasic full])
      | .ok basic =>
          match conn.queryStdFn full with
          | .error e =>
              (.error (.term ("query_standard_failed: " ++ e)), [.queryBasic full, .queryStandard full])
          | .ok stdi => (.ok (mkRichStats .dir basic stdi), [.queryBasic full, .queryStandard full])
  | .file, _ => (.error (.term "not_a_file"), [])
  | .dir, _ => (.error (.term "not_a_directory"), [])

/-- `file_stats` (lib.rs lines 498-598): trims both ends (the empty path keeps
the bare share root), probes the kind first; an absent path is the
success-shaped `not_found`; otherwise a second open matching the kind feeds
the two metadata queries. -/
def file_stats (conn : Conn) (pathInShare : String) :
    Except NifError StatsOut × List Event :=
  let rel := trimBothSeps pathInShare
  let full := if rel = "" then conn.shareStr else joinShare conn.shareStr rel
  if conn.uncOk full = false then (.error .badArg, [])
  else if conn.poisoned then (.error (.term "mutex_poisoned"), [.lock])
  else
    match open_for_kind conn full with
    | none => (.ok .notFound, [.lock, .createFile full probeArgs])
    | some k =>
        match conn.createFile full (statsOpenArgs k) with
        | .error e =>
            (.error (.term ("smb_open_failed: " ++ e)),
              [.lock, .createFile full probeArgs, .createFile full (statsOpenArgs k)])
        | .ok tag =>
            let r := fileStatsAfterOpen conn full k tag
            (r.1.map StatsOut.stats,
              [.lock, .createFile full probeArgs, .createFile full (statsOpenArgs k)] ++ r.2)

/-- `rename` (lib.rs lines 600-668): trims both paths (either empty is
`bad_path`); the destination becomes a share-relative name with `/` replaced
by `\`; the lock is taken before the source UNC is parsed; the source is first
opened under non-directory options (a success that is not a file is
`not_a_file_or_dir`), otherwise reopened under directory options
(`open_failed` on error, `not_a_directory` on a non-directory handle); the
rename-info update failure is `rename_failed`. -/
def rename (conn : Conn) (fromInShare toInShare : String) (replaceIfExists : Bool) :
    Except NifError Unit × List Event :=
  let fromRel := trimBothSeps fromInShare
  let toRel := trimBothSeps toInShare
  if fromRel = "" ∨ toRel = "" then (.error (.term "bad_path"), [])
  else
    let fromFull := joinShare conn.shareStr fromRel
    let toRelBS : String := ⟨toRel.toList.map fun c => if c = '/' then '\\' else c⟩
    let info : FileRenameInformation2 := ⟨replaceIfExists, 0, toRelBS⟩
    if conn.poisoned then (.error (.term "mutex_poisoned"), [.lock])
    else if conn.uncOk fromFull = false then (.error .badArg, [.lock])
    else
      match conn.createFile fromFull renameFileArgs with
      | .ok .file =>
          match conn.setInfoFn fromFull info with
          | .error e =>
              (.error (.term ("rename_failed: " ++ e)),
                [.lock, .createFile fromFull renameFileArgs, .setRenameInfo fromFull info])
          | .ok _ =>
              (.ok (), [.lock, .createFile fromFull renameFileArgs, .setRenameInfo fromFull info])
      | .ok _ =>
          (.error (.term "not_a_file_or_dir"), [.lock, .createFile fromFull renameFileArgs])
      | .error _ =>
          match conn.createFile fromFull renameDirArgs with
          | .error e =>
              (.error (.term ("open_failed: " ++ e)),
                [.lock, .createFile fromFull renameFileArgs, .createFile fromFull renameDirArgs])
          | .ok .dir =>
              match conn.setInfoFn fromFull info with
              | .error e =>
                  (.error (.term ("rename_failed: " ++ e)),
                    [.lock, .createFile fromFull renameFileArgs,
                      .createFile fromFull renameDirArgs, .setRenameInfo fromFull info])
              | .ok _ =>
                  (.ok (),
                    [.lock, .createFile fromFull renameFileArgs,
                      .createFile fromFull renameDirArgs, .setRenameInfo fromFull info])
          | .ok _ =>
              (.error (.term "not_a_directory"),
                [.lock, .createFile fromFull renameFileArgs, .createFile fromFull renameDirArgs])

/-- Whether an event is one of the two metadata queries of `file_stats`. -/
def isQueryEvent : Event → Bool
  | .queryBasic _ => true
  | .queryStandard _ => true
  | _ => false

/-- The accumulated path of each surviving segment of a `mkdir_p` walk, in
order (empty and `.` segments skipped, as in the loop). -/
def accPaths (acc : String) : List String → List String
  | [] => []
  | seg :: rest =>
      if seg = "" ∨ seg = "." then accPaths acc rest
      else joinShare acc seg :: accPaths (joinShare acc seg) rest

/-! ### Concrete oracles used by witnesses and counterexamples -/

/-- A healthy connection on share `\\srv\share` on which every open succeeds
with a file handle and every other call succeeds trivially. -/
def connAllFiles : Conn :=
  { poisoned := false
    shareStr := "\\\\srv\\share"
    uncOk := fun _ => true
    createFile := fun _ _ => .ok .file
    readAllFn := fun _ => .ok []
    writeAllFn := fun _ _ => .ok ()
    allocOk := fun _ => true
    queryDirFn := fun _ => .ok []
    queryBasicFn := fun _ => .ok ⟨0, 0, 0, 0, 0⟩
    queryStdFn := fun _ => .ok ⟨0, 0, 0⟩
    setInfoFn := fun _ _ => .ok () }

/-- A connection on which every open fails with a not-found status text. -/
def connAbsent : Conn :=
  { connAllFiles with createFile := fun _ _ => .error "boom (0xC0000034)" }

/-- A connection on which the probe sees a directory and the delete-on-close
open fails with directory-not-empty. -/
def connDNE : Conn :=
  { connAllFiles with
    createFile := fun _ a => if a = probeArgs then .ok .dir else .error "e (0xC0000101)" }

/-- A connection on which the probe sees a file and the delete-on-close open
fails with delete-pending. -/
def connGone : Conn :=
  { connAllFiles with
    createFile := fun _ a => if a = probeArgs then .ok .file else .error "e (0xC0000056)" }

/-- A connection on which every open succeeds with a handle that is neither a
file nor a directory. -/
def connOther : Conn :=
  { connAllFiles with createFile := fun _ _ => .ok .other }

/-- A connection whose mutex is poisoned. -/
def connPoisoned : Conn := { connAllFiles with poisoned := true }

/-! ## Theorems -/

/-- Claim C5: the timestamp conversion maps tick value 0 to 0, maps the tick
value of 1970-01-01T00:00:00Z (11_644_473_600 * 10_000_000) to 0, and maps the
tick value one second later to 1. -/
theorem claim_C5 :
    filetime_to_unix_seconds 0 = 0 ∧
    filetime_to_unix_seconds (11644473600 * 10000000) = 0 ∧
    filetime_to_unix_seconds (11644473600 * 10000000 + 10000000) = 1 := by
  refine ⟨rfl, ?_, ?_⟩ <;> norm_num [filetime_to_unix_seconds]

/-- Claim C8: the timestamp conversion is total (it is a Lean function into
Nat, hence never panics and never returns a negative value), and for every
nonzero tick value strictly before the Unix epoch the subtraction saturates to
0. -/
theorem claim_C8 (ticks : Nat) (h1 : 0 < ticks) (h2 : ticks < 11644473600 * 10000000) :
    filetime_to_unix_seconds ticks = 0 := by
  unfold filetime_to_unix_seconds
  rw [if_neg (Nat.pos_iff_ne_zero.mp h1)]
  refine Nat.sub_eq_zero_of_le (le_of_lt ?_)
  exact (Nat.div_lt_iff_lt_mul (by norm_num)).mpr h2

/-- Witness for claim C8 at the concrete tick value 123 (a time shortly after
1601-01-01, long before the Unix epoch). -/
theorem claim_C8_witness :
    0 < 123 ∧ 123 < 11644473600 * 10000000 ∧ filetime_to_unix_seconds 123 = 0 :=
  ⟨by norm_num, by norm_num, claim_C8 123 (by norm_num) (by norm_num)⟩

/-- Claim C10: `mkdir` and `rm` reject an empty trimmed relative path with a
`bad_path` error, with an empty event trace — so before the connection lock
is ever acquired and before any protocol request; the connection may even be
poisoned. -/
theorem claim_C10 (conn : Conn) (rel : String) (h : trimBothSeps rel = "") :
    mkdir conn rel = (Except.error (NifError.term "bad_path"), []) ∧
    rm conn rel = (Except.error (NifError.term "bad_path"), []) := by
  constructor <;> simp [mkdir, rm, h]

/-- Witness for claim C10 on the path `"/"` (whose trimmed form is empty) over
a poisoned connection: the `bad_path` error fires with no lock event. -/
theorem claim_C10_witness :
    trimBothSeps "/" = "" ∧
    mkdir connPoisoned "/" = (Except.error (NifError.term "bad_path"), []) ∧
    rm connPoisoned "/" = (Except.error (NifError.term "bad_path"), []) := by
  refine ⟨by decide, ?_, ?_⟩
  · exact (claim_C10 connPoisoned "/" (by decide)).1
  · exact (claim_C10 connPoisoned "/" (by decide)).2

/-! ### Status-translator lemmas (claim C2) -/

/-- Scanning for `(0x` in `pre ++ "(0x" ++ tail` finds the marker right after
`pre` whenever `pre` itself contains no occurrence (a match can never straddle
the boundary because the marker's second and third characters differ from its
first). -/
theorem afterMarker_append :
    ∀ (pre : List Char), afterMarker pre = none →
      ∀ tail, afterMarker (pre ++ '(' :: '0' :: 'x' :: tail) = some tail := by
  intro pre
  induction pre with
  | nil =>
      intro _ tail
      show afterMarker ('(' :: '0' :: 'x' :: tail) = some tail
      unfold afterMarker
      rw [if_pos ⟨rfl, rfl, rfl⟩]
  | cons c rest ih =>
      intro h tail
      rcases rest with _ | ⟨d, rest2⟩
      · show afterMarker (c :: '(' :: '0' :: 'x' :: tail) = some tail
        unfold afterMarker
        rw [if_neg (fun hco => absurd hco.2.1 (by decide))]
        unfold afterMarker
        rw [if_pos ⟨rfl, rfl, rfl⟩]
      · rcases rest2 with _ | ⟨e, rest3⟩
        · show afterMarker (c :: d :: '(' :: '0' :: 'x' :: tail) = some tail
          unfold afterMarker
          rw [if_neg (fun hco => absurd hco.2.2 (by decide))]
          exact ih rfl tail
        · have hcond : ¬(c = '(' ∧ d = '0' ∧ e = 'x') := by
            intro hco
            unfold afterMarker at h
            rw [if_pos hco] at h
            exact Option.noConfusion h
          have h2 : afterMarker (d :: e :: rest3) = none := by
            unfold afterMarker at h
            rwa [if_neg hcond] at h
          show afterMarker (c :: d :: e :: (rest3 ++ '(' :: '0' :: 'x' :: tail)) = some tail
          unfold afterMarker
          rw [if_neg hcond]
          exact ih h2 tail

/-- Stripping trailing `)` from a nonempty hex-digit string followed by one
`)` recovers the digit string. -/
theorem trimEndRParens_digits (digits : List Char) (h2 : digits ≠ [])
    (h3 : digits.all isHexDigitCh = true) :
    trimEndRParens (digits ++ [')']) = digits := by
  unfold trimEndRParens
  rw [List.reverse_append]
  rcases hrev : digits.reverse with _ | ⟨d, r⟩
  · exact absurd (by simpa using congrArg List.reverse hrev) h2
  · have hd : isHexDigitCh d = true := by
      refine List.all_eq_true.mp h3 d (List.mem_reverse.mp ?_)
      rw [hrev]
      exact List.mem_cons_self d r
    have hdne : ¬(d = ')') := fun hh => by
      rw [hh] at hd
      exact absurd hd (by decide)
    rw [List.reverse_singleton, List.singleton_append]
    rw [List.dropWhile_cons_of_pos (by simp), List.dropWhile_cons_of_neg (by simpa using hdne)]
    rw [← hrev, List.reverse_reverse]

/-- `u32::from_str_radix(_, 16)` on a nonempty all-hex-digit string whose
value fits in a u32 returns that value. -/
theorem fromStrRadix16_hex (l : List Char) (h2 : l ≠ []) (h3 : l.all isHexDigitCh = true)
    (h4 : hexListVal l < 4294967296) :
    fromStrRadix16 l = some (hexListVal l) := by
  rcases l with _ | ⟨c, rest⟩
  · exact absurd rfl h2
  · have hc : isHexDigitCh c = true := List.all_eq_true.mp h3 c (List.mem_cons_self c rest)
    have hplus : ¬(c = '+') := fun hh => by
      rw [hh] at hc
      exact absurd hc (by decide)
    have hminus : ¬(c = '-') := fun hh => by
      rw [hh] at hc
      exact absurd hc (by decide)
    show (if c = '+' then fromDigits16 rest false
          else if c = '-' then fromDigits16 rest true
          else fromDigits16 (c :: rest) false) = some (hexListVal (c :: rest))
    rw [if_neg hplus, if_neg hminus]
    unfold fromDigits16
    rw [if_neg (by simp : ¬(c :: rest = [])), if_pos h3]
    simp [h4]

/-- Claim C2 counterexample: an error rendering in which text follows the
closing parenthesis of `(0xC0000034)` makes the translator fail — it does not
stop at the next `)`, so it returns `none` rather than the embedded code. -/
theorem claim_C2_counterexample :
    ntstatus_from_err_display "e (0xC0000034) more" = none ∧
    ntstatus_from_err_display "e (0xC0000034) more" ≠ some 3221225524 := by
  refine ⟨by decide, by decide⟩

/-- Claim C2 (amended): the status translator locates the first occurrence of
the literal substring `(0x`, takes the entire remainder of the rendering,
strips every trailing `)`, and parses the result as hex; in particular it
succeeds (returning the embedded code) exactly on renderings where nothing but
`)` follows the hex digits, and fails when further text follows the closing
parenthesis. -/
theorem claim_C2_amended (pre digits : List Char) (h1 : afterMarker pre = none)
    (h2 : digits ≠ []) (h3 : digits.all isHexDigitCh = true)
    (h4 : hexListVal digits < 4294967296) :
    ntstatus_from_err_display ⟨pre ++ '(' :: '0' :: 'x' :: (digits ++ [')'])⟩ =
      some (hexListVal digits) := by
  unfold ntstatus_from_err_display
  have ht : (String.mk (pre ++ '(' :: '0' :: 'x' :: (digits ++ [')']))).toList
      = pre ++ '(' :: '0' :: 'x' :: (digits ++ [')']) := rfl
  rw [ht, afterMarker_append pre h1 (digits ++ [')'])]
  show fromStrRadix16 (trimEndRParens (digits ++ [')'])) = some (hexListVal digits)
  rw [trimEndRParens_digits digits h2 h3]
  exact fromStrRadix16_hex digits h2 h3 h4

/-- Witness for claim C2 (amended) on the rendering `e (0xC0000034)`: the
translator returns the code 0xC0000034 = 3221225524. -/
theorem claim_C2_witness :
    ntstatus_from_err_display ⟨['e', ' '] ++ '(' :: '0' :: 'x' ::
        (['C', '0', '0', '0', '0', '0', '3', '4'] ++ [')'])⟩ = some 3221225524 := by
  have h := claim_C2_amended ['e', ' '] ['C', '0', '0', '0', '0', '0', '3', '4']
      (by decide) (by decide) (by decide) (by decide)
  rw [h]
  decide

/-! ### Delete, existence check, rich stats (claims C3, C6, C7, C9) -/

/-- Claim C3: `rm` probes the resource kind first and returns success with no
further request when the path is absent (so two consecutive calls on the same
absent path both succeed, the protocol state being untouched); when the
delete-on-close open fails, the parsed status is reclassified: not-found
(0xC0000034) and delete-pending (0xC0000056) become success,
directory-not-empty (0xC0000101) becomes the distinct `dir_not_empty` error,
and every other parse outcome becomes a generic `rm_failed` error. -/
theorem claim_C3 (conn : Conn) (rel : String)
    (hp : conn.poisoned = false)
    (hne : trimBothSeps rel ≠ "")
    (hu : conn.uncOk (joinShare conn.shareStr (trimBothSeps rel)) = true) :
    (open_for_kind conn (joinShare conn.shareStr (trimBothSeps rel)) = none →
      (rm conn rel).1 = Except.ok () ∧ (rm conn rel).1 = Except.ok () ∧
      (rm conn rel).2 = [Event.lock,
        Event.createFile (joinShare conn.shareStr (trimBothSeps rel)) probeArgs]) ∧
    (∀ k e, open_for_kind conn (joinShare conn.shareStr (trimBothSeps rel)) = some k →
      conn.createFile (joinShare conn.shareStr (trimBothSeps rel)) (rmArgs k) = Except.error e →
      ((ntstatus_from_err_display e = some 0xC0000034 ∨
          ntstatus_from_err_display e = some 0xC0000056) →
        (rm conn rel).1 = Except.ok ()) ∧
      (ntstatus_from_err_display e = some 0xC0000101 →
        (rm conn rel).1 = Except.error (NifError.term "dir_not_empty")) ∧
      (∀ code, ntstatus_from_err_display e = some code →
        code ≠ 0xC0000034 → code ≠ 0xC0000056 → code ≠ 0xC0000101 →
        (rm conn rel).1 = Except.error (NifError.term ("rm_failed: " ++ e))) ∧
      (ntstatus_from_err_display e = none →
        (rm conn rel).1 = Except.error (NifError.term ("rm_failed: " ++ e)))) := by
  constructor
  · intro habs
    simp [rm, hne, hu, hp, habs]
  · intro k e hk he
    refine ⟨?_, ?_, ?_, ?_⟩
    · rintro (hs | hs) <;> simp [rm, hne, hu, hp, hk, he, hs]
    · intro hs
      simp [rm, hne, hu, hp, hk, he, hs]
    · intro code hs h34 h56 h101
      simp [rm, hne, hu, hp, hk, he, hs, h34, h56, h101]
    · intro hs
      simp [rm, hne, hu, hp, hk, he, hs]

/-- Witness for claim C3: on `connAbsent` (probe fails) `rm` succeeds; on
`connGone` (probe sees a file, delete-open fails with 0xC0000056) `rm`
succeeds; on `connDNE` (probe sees a directory, delete-open fails with
0xC0000101) `rm` fails with `dir_not_empty`. -/
theorem claim_C3_witness :
    (rm connAbsent "f.txt").1 = Except.ok () ∧
    (rm connGone "f.txt").1 = Except.ok () ∧
    (rm connDNE "d").1 = Except.error (NifError.term "dir_not_empty") := by
  refine ⟨?_, ?_, ?_⟩
  · exact ((claim_C3 connAbsent "f.txt" rfl (by decide) rfl).1 (by decide)).1
  · exact (((claim_C3 connGone "f.txt" rfl (by decide) rfl).2 Kind.file "e (0xC0000056)"
      (by decide) (by decide)).1 (Or.inr (by decide)))
  · exact (((claim_C3 connDNE "d" rfl (by decide) rfl).2 Kind.dir "e (0xC0000101)"
      (by decide) (by decide)).2.1 (by decide))

/-- Claim C6 counterexample: on a connection whose open succeeds with a handle
tagged neither file nor directory, the probing open succeeds yet `exists`
reports `not_found` — so "File or Directory when the probing open succeeds"
fails as stated. -/
theorem claim_C6_counterexample :
    connOther.createFile "\\\\srv\\share\\p" probeArgs = Except.ok ResTag.other ∧
    (existsOp connOther "p").1 = Except.ok ExTag.notFound := by
  exact ⟨rfl, by decide⟩

/-- Claim C6 (amended): with an empty trimmed relative path, `exists` reports
`directory` with an empty event trace (no protocol call); otherwise it returns
exactly the prober's classification: `file`/`directory` when the probing open
succeeds with a handle tagged file/directory, and `not_found` when the open
fails for any reason or succeeds with a handle tagged neither. -/
theorem claim_C6_amended (conn : Conn) (rel : String)
    (hp : conn.poisoned = false)
    (hu : ∀ s, conn.uncOk s = true) :
    (trimBothSeps rel = "" → existsOp conn rel = (Except.ok ExTag.directory, [])) ∧
    (trimBothSeps rel ≠ "" →
      (∀ e, conn.createFile (joinShare conn.shareStr (trimBothSeps rel)) probeArgs =
          Except.error e → (existsOp conn rel).1 = Except.ok ExTag.notFound) ∧
      (conn.createFile (joinShare conn.shareStr (trimBothSeps rel)) probeArgs =
          Except.ok ResTag.file → (existsOp conn rel).1 = Except.ok ExTag.file) ∧
      (conn.createFile (joinShare conn.shareStr (trimBothSeps rel)) probeArgs =
          Except.ok ResTag.dir → (existsOp conn rel).1 = Except.ok ExTag.directory) ∧
      (conn.createFile (joinShare conn.shareStr (trimBothSeps rel)) probeArgs =
          Except.ok ResTag.other → (existsOp conn rel).1 = Except.ok ExTag.notFound)) := by
  constructor
  · intro h
    simp [existsOp, h]
  · intro hne
    refine ⟨fun e h => ?_, fun h => ?_, fun h => ?_, fun h => ?_⟩ <;>
      simp [existsOp, open_for_kind, hne, hu, hp, h]

/-- Witness for claim C6 (amended): the empty path reports `directory` with no
events, and on `connAllFiles` a nonempty path reports `file`. -/
theorem claim_C6_witness :
    existsOp connAllFiles "" = (Except.ok ExTag.directory, []) ∧
    (existsOp connAllFiles "p").1 = Except.ok ExTag.file := by
  refine ⟨(claim_C6_amended connAllFiles "" rfl fun _ => rfl).1 (by decide), ?_⟩
  exact ((claim_C6_amended connAllFiles "p" rfl fun _ => rfl).2 (by decide)).2.1 rfl

/-- Claim C7: `file_stats` probes the resource kind first; when the path is
absent it returns the success-shaped `not_found` outcome (not an error), its
trace is exactly the lock and the probing open, and in particular no metadata
query is issued. -/
theorem claim_C7 (conn : Conn) (rel : String)
    (hp : conn.poisoned = false)
    (hu : conn.uncOk (if trimBothSeps rel = "" then conn.shareStr
        else joinShare conn.shareStr (trimBothSeps rel)) = true)
    (habs : open_for_kind conn (if trimBothSeps rel = "" then conn.shareStr
        else joinShare conn.shareStr (trimBothSeps rel)) = none) :
    (file_stats conn rel).1 = Except.ok StatsOut.notFound ∧
    (file_stats conn rel).2 = [Event.lock,
      Event.createFile (if trimBothSeps rel = "" then conn.shareStr
        else joinShare conn.shareStr (trimBothSeps rel)) probeArgs] ∧
    (∀ ev ∈ (file_stats conn rel).2, isQueryEvent ev = false) := by
  have h : file_stats conn rel = (Except.ok StatsOut.notFound, [Event.lock,
      Event.createFile (if trimBothSeps rel = "" then conn.shareStr
        else joinShare conn.shareStr (trimBothSeps rel)) probeArgs]) := by
    simp only [file_stats]
    rw [hu]
    simp [hp, habs]
  rw [h]
  refine ⟨rfl, rfl, ?_⟩
  intro ev hev
  simp only [List.mem_cons, List.not_mem_nil, or_false] at hev
  rcases hev with rfl | rfl <;> rfl

/-- Witness for claim C7 on `connAbsent` (every open fails): `file_stats`
returns the success-shaped `not_found` with only the lock and probe events. -/
theorem claim_C7_witness :
    (file_stats connAbsent "nope").1 = Except.ok StatsOut.notFound ∧
    (file_stats connAbsent "nope").2 = [Event.lock,
      Event.createFile (if trimBothSeps "nope" = "" then connAbsent.shareStr
        else joinShare connAbsent.shareStr (trimBothSeps "nope")) probeArgs] := by
  refine ⟨(claim_C7 connAbsent "nope" rfl (by decide) (by decide)).1,
    (claim_C7 connAbsent "nope" rfl (by decide) (by decide)).2.1⟩

/-- Claim C9: when the probing open succeeds but the handle is tagged neither
file nor directory, the prober reports the path as absent, so `exists` reports
`not_found` and `rm` reports immediate success even though the resource exists
and was successfully opened. -/
theorem claim_C9 (conn : Conn) (rel : String)
    (hp : conn.poisoned = false) (hne : trimBothSeps rel ≠ "")
    (hu : conn.uncOk (joinShare conn.shareStr (trimBothSeps rel)) = true)
    (hother : conn.createFile (joinShare conn.shareStr (trimBothSeps rel)) probeArgs =
      Except.ok ResTag.other) :
    open_for_kind conn (joinShare conn.shareStr (trimBothSeps rel)) = none ∧
    (existsOp conn rel).1 = Except.ok ExTag.notFound ∧
    (rm conn rel).1 = Except.ok () := by
  have hn : open_for_kind conn (joinShare conn.shareStr (trimBothSeps rel)) = none := by
    unfold open_for_kind
    rw [hother]
  refine ⟨hn, ?_, ?_⟩
  · simp [existsOp, hne, hu, hp, hn]
  · simp [rm, hne, hu, hp, hn]

/-- Witness for claim C9 on `connOther` (every open yields an other-tagged
handle): `exists` reports `not_found` and `rm` succeeds. -/
theorem claim_C9_witness :
    (existsOp connOther "p").1 = Except.ok ExTag.notFound ∧
    (rm connOther "p").1 = Except.ok () :=
  ⟨(claim_C9 connOther "p" rfl (by decide) rfl rfl).2.1,
   (claim_C9 connOther "p" rfl (by decide) rfl rfl).2.2⟩

/-! ### Path-rejection lemmas (claims C1 and C4) -/

/-- String append concatenates the underlying character lists. -/
theorem strToList_append (a b : String) : (a ++ b).toList = a.toList ++ b.toList := by
  cases a
  cases b
  rfl

/-- A `..` occurrence in the right part survives prepending. -/
theorem hasDD_append_right : ∀ (a b : List Char), hasDD b = true → hasDD (a ++ b) = true := by
  intro a
  induction a with
  | nil =>
      intro b h
      exact h
  | cons c rest ih =>
      intro b h
      have hb : b ≠ [] := fun hbe => by
        rw [hbe] at h
        exact absurd h (by decide)
      rcases hrb : rest ++ b with _ | ⟨y, t⟩
      · rcases List.append_eq_nil.mp hrb with ⟨-, hb2⟩
        exact absurd hb2 hb
      · show hasDD (c :: (rest ++ b)) = true
        rw [hrb]
        unfold hasDD
        by_cases hcy : c = '.' ∧ y = '.'
        · rw [if_pos hcy]
        · rw [if_neg hcy, ← hrb]
          exact ih b h

/-- Joining a share root in front preserves a `..` occurrence. -/
theorem strHasDD_join (base r : String) (h : strHasDD r = true) :
    strHasDD (joinShare base r) = true := by
  unfold joinShare strHasDD
  rw [strToList_append]
  exact hasDD_append_right _ _ h

/-- The `mkdir_p` walk fails with the `bad_segment` error whenever `..` occurs
among the segments, provided the UNC parser and the creates accept everything
before it. -/
theorem mkdirPLoop_dotdot (conn : Conn)
    (hu : ∀ s, conn.uncOk s = true)
    (hc : ∀ p a, ∃ t, conn.createFile p a = Except.ok t) :
    ∀ (segs : List String) (acc : String), ".." ∈ segs →
      (mkdirPLoop conn acc segs).1 =
        Except.error (NifError.term "bad_segment: \x27..\x27") := by
  intro segs
  induction segs with
  | nil =>
      intro acc h
      exact absurd h (List.not_mem_nil _)
  | cons seg rest ih =>
      intro acc h
      by_cases h1 : seg = "" ∨ seg = "."
      · have hm : ".." ∈ rest := by
          rcases List.mem_cons.mp h with heq | hm
          · rcases h1 with h1 | h1 <;> rw [h1] at heq <;> exact absurd heq (by decide)
          · exact hm
        show (mkdirPLoop conn acc (seg :: rest)).1 = _
        unfold mkdirPLoop
        rw [if_pos h1]
        exact ih acc hm
      · by_cases h2 : seg = ".."
        · show (mkdirPLoop conn acc (seg :: rest)).1 = _
          unfold mkdirPLoop
          rw [if_neg h1, if_pos h2]
        · have hm : ".." ∈ rest := by
            rcases List.mem_cons.mp h with heq | hm
            · exact absurd heq.symm h2
            · exact hm
          obtain ⟨t, ht⟩ := hc (joinShare acc seg) mkdirPArgs
          have hrec := ih (joinShare acc seg) hm
          simp [mkdirPLoop, h1, h2, hu, ht, hrec]

/-- On a `..`-free segment list the `mkdir_p` walk succeeds and issues exactly
one `OpenIf` create per accumulated path, in order. -/
theorem mkdirPLoop_ok (conn : Conn)
    (hu : ∀ s, conn.uncOk s = true)
    (hc : ∀ p a, ∃ t, conn.createFile p a = Except.ok t) :
    ∀ (segs : List String) (acc : String), (∀ s ∈ segs, s ≠ "..") →
      mkdirPLoop conn acc segs =
        (Except.ok (), (accPaths acc segs).map fun p => Event.createFile p mkdirPArgs) := by
  intro segs
  induction segs with
  | nil =>
      intro acc _
      rfl
  | cons seg rest ih =>
      intro acc h
      have hseg : seg ≠ ".." := h seg (List.mem_cons_self seg rest)
      have hrest : ∀ s ∈ rest, s ≠ ".." := fun s hs => h s (List.mem_cons_of_mem seg hs)
      by_cases h1 : seg = "" ∨ seg = "."
      · show mkdirPLoop conn acc (seg :: rest) = _
        unfold mkdirPLoop accPaths
        rw [if_pos h1, if_pos h1]
        exact ih acc hrest
      · obtain ⟨t, ht⟩ := hc (joinShare acc seg) mkdirPArgs
        have hrec := ih (joinShare acc seg) hrest
        simp [mkdirPLoop, accPaths, h1, hseg, hu, ht, hrec]

/-- Claim C4 counterexample: `mkdir_p` on `a/../b` does fail with the
bad-segment error, but only after issuing the create-directory request for the
prefix `a` — the `..` segment is not rejected before the walk begins. -/
theorem claim_C4_counterexample :
    (mkdir_p connAllFiles "a/../b").1 =
      Except.error (NifError.term "bad_segment: \x27..\x27") ∧
    (mkdir_p connAllFiles "a/../b").2 =
      [Event.lock, Event.createFile "\\\\srv\\share\\a" mkdirPArgs] :=
  ⟨rfl, rfl⟩

/-- Claim C4 (amended): `mkdir_p` splits its trimmed relative path into ordered
segments and walks them left to right, issuing one create-directory request
with open-or-create (`OpenIf`) disposition per accumulated prefix; an empty
resolved path is a no-op success; a `..` segment causes the bad-segment
failure when it is reached, so create requests have already been issued for
the prefixes preceding it. -/
theorem claim_C4_amended (conn : Conn) (rel : String)
    (hp : conn.poisoned = false)
    (hu : ∀ s, conn.uncOk s = true)
    (hc : ∀ p a, ∃ t, conn.createFile p a = Except.ok t) :
    (trimBothSeps rel = "" → mkdir_p conn rel = (Except.ok (), [])) ∧
    (trimBothSeps rel ≠ "" → (∀ s ∈ splitPath (trimBothSeps rel), s ≠ "..") →
      mkdir_p conn rel = (Except.ok (),
        Event.lock :: (accPaths conn.shareStr (splitPath (trimBothSeps rel))).map
          fun p => Event.createFile p mkdirPArgs)) ∧
    (".." ∈ splitPath (trimBothSeps rel) →
      (mkdir_p conn rel).1 = Except.error (NifError.term "bad_segment: \x27..\x27")) := by
  refine ⟨fun h => by simp [mkdir_p, h], fun hne hs => ?_, fun hdd => ?_⟩
  · have hok := mkdirPLoop_ok conn hu hc (splitPath (trimBothSeps rel)) conn.shareStr hs
    simp [mkdir_p, hne, hp, hok]
  · have hne : trimBothSeps rel ≠ "" := by
      intro hh
      rw [hh] at hdd
      exact absurd hdd (by decide)
    have herr := mkdirPLoop_dotdot conn hu hc (splitPath (trimBothSeps rel)) conn.shareStr hdd
    simp [mkdir_p, hne, hp, herr]

/-- Witness for claim C4 (amended) on the `..`-free path `x/y`: two `OpenIf`
creates are issued, one per prefix, and the call succeeds. -/
theorem claim_C4_witness :
    (∀ s ∈ splitPath (trimBothSeps "x/y"), s ≠ "..") ∧
    mkdir_p connAllFiles "x/y" = (Except.ok (),
      Event.lock :: (accPaths connAllFiles.shareStr (splitPath (trimBothSeps "x/y"))).map
        fun p => Event.createFile p mkdirPArgs) :=
  ⟨by decide, (claim_C4_amended connAllFiles "x/y" rfl (fun _ => rfl)
      (fun p a => ⟨.file, rfl⟩)).2.1 (by decide) (by decide)⟩

/-- Claim C1 counterexample: `read_file` on the `..`-carrying relative path
`a/../b` does not fail with any bad-path error — it resolves by plain
concatenation and issues the open request for the `..`-carrying remote path
(and on this oracle succeeds outright). -/
theorem claim_C1_counterexample :
    (read_file connAllFiles "a/../b").1 = Except.ok [] ∧
    (read_file connAllFiles "a/../b").2 =
      [Event.lock, Event.createFile "\\\\srv\\share\\a/../b" openReadArgs,
        Event.readAll "\\\\srv\\share\\a/../b"] :=
  ⟨rfl, rfl⟩

/-- Claim C1 (amended): only `mkdir_p` rejects `..` segments, and it does so
lazily during its walk (failing with the `bad_segment` error when the segment
is reached); every other operation performs no `..` check at all — its
resolution trims separators and concatenates, and (with a healthy lock and an
accepting UNC parser) it issues a protocol request whose path still contains
the `..` segment. -/
theorem claim_C1_amended (conn : Conn) (rel : String) (data : List Nat) (flag : Bool)
    (hp : conn.poisoned = false)
    (hu : ∀ s, conn.uncOk s = true)
    (hc : ∀ p a, ∃ t, conn.createFile p a = Except.ok t)
    (hddS : strHasDD (trimStartSeps rel) = true)
    (hddB : strHasDD (trimBothSeps rel) = true)
    (hseg : ".." ∈ splitPath (trimBothSeps rel)) :
    ((mkdir_p conn rel).1 = Except.error (NifError.term "bad_segment: \x27..\x27")) ∧
    (∃ p a, Event.createFile p a ∈ (read_file conn rel).2 ∧ strHasDD p = true) ∧
    (∃ p a, Event.createFile p a ∈ (write_file conn rel data).2 ∧ strHasDD p = true) ∧
    (∃ p a, Event.createFile p a ∈ (list_dir conn rel).2 ∧ strHasDD p = true) ∧
    (∃ p a, Event.createFile p a ∈ (stat conn rel).2 ∧ strHasDD p = true) ∧
    (∃ p a, Event.createFile p a ∈ (mkdir conn rel).2 ∧ strHasDD p = true) ∧
    (∃ p a, Event.createFile p a ∈ (rm conn rel).2 ∧ strHasDD p = true) ∧
    (∃ p a, Event.createFile p a ∈ (existsOp conn rel).2 ∧ strHasDD p = true) ∧
    (∃ p a, Event.createFile p a ∈ (file_stats conn rel).2 ∧ strHasDD p = true) ∧
    (∃ p a, Event.createFile p a ∈ (rename conn rel rel flag).2 ∧ strHasDD p = true) := by
  have hneS : trimStartSeps rel ≠ "" := by
    intro hh
    rw [hh] at hddS
    exact absurd hddS (by decide)
  have hneB : trimBothSeps rel ≠ "" := by
    intro hh
    rw [hh] at hddB
    exact absurd hddB (by decide)
  have hjS : strHasDD (joinShare conn.shareStr (trimStartSeps rel)) = true :=
    strHasDD_join _ _ hddS
  have hjB : strHasDD (joinShare conn.shareStr (trimBothSeps rel)) = true :=
    strHasDD_join _ _ hddB
  refine ⟨?_, ?_, ?_, ?_, ?_, ?_, ?_, ?_, ?_, ?_⟩
  · -- mkdir_p rejects (lazily)
    have herr := mkdirPLoop_dotdot conn hu hc (splitPath (trimBothSeps rel)) conn.shareStr hseg
    simp [mkdir_p, hneB, hp, herr]
  · -- read_file
    obtain ⟨t, ht⟩ := hc (joinShare conn.shareStr (trimStartSeps rel)) openReadArgs
    refine ⟨joinShare conn.shareStr (trimStartSeps rel), openReadArgs, ?_, hjS⟩
    simp [read_file, hneS, hu, hp, ht]
  · -- write_file
    obtain ⟨t, ht⟩ := hc (joinShare conn.shareStr (trimStartSeps rel)) writeArgs
    refine ⟨joinShare conn.shareStr (trimStartSeps rel), writeArgs, ?_, hjS⟩
    simp [write_file, hneS, hu, hp, ht]
  · -- list_dir
    obtain ⟨t, ht⟩ := hc (joinShare conn.shareStr (trimBothSeps rel)) openReadArgs
    refine ⟨joinShare conn.shareStr (trimBothSeps rel), openReadArgs, ?_, hjB⟩
    rcases t with _ | _ | _
    · simp [list_dir, hneB, hu, hp, ht]
    · rcases hq : conn.queryDirFn (joinShare conn.shareStr (trimBothSeps rel)) with e | items <;>
        simp [list_dir, hneB, hu, hp, ht, hq]
    · simp [list_dir, hneB, hu, hp, ht]
  · -- stat
    obtain ⟨t, ht⟩ := hc (joinShare conn.shareStr (trimStartSeps rel)) openReadArgs
    refine ⟨joinShare conn.shareStr (trimStartSeps rel), openReadArgs, ?_, hjS⟩
    rcases t with _ | _ | _
    · rcases hr : conn.readAllFn (joinShare conn.shareStr (trimStartSeps rel)) with e | buf <;>
        simp [stat, hneS, hu, hp, ht, hr]
    · simp [stat, hneS, hu, hp, ht]
    · simp [stat, hneS, hu, hp, ht]
  · -- mkdir
    obtain ⟨t, ht⟩ := hc (joinShare conn.shareStr (trimBothSeps rel)) mkdirArgs
    refine ⟨joinShare conn.shareStr (trimBothSeps rel), mkdirArgs, ?_, hjB⟩
    simp [mkdir, hneB, hu, hp, ht]
  · -- rm
    obtain ⟨t, ht⟩ := hc (joinShare conn.shareStr (trimBothSeps rel)) probeArgs
    refine ⟨joinShare conn.shareStr (trimBothSeps rel), probeArgs, ?_, hjB⟩
    rcases t with _ | _ | _
    · obtain ⟨t2, ht2⟩ := hc (joinShare conn.shareStr (trimBothSeps rel)) (rmArgs .file)
      simp [rm, open_for_kind, hneB, hu, hp, ht, ht2]
    · obtain ⟨t2, ht2⟩ := hc (joinShare conn.shareStr (trimBothSeps rel)) (rmArgs .dir)
      simp [rm, open_for_kind, hneB, hu, hp, ht, ht2]
    · simp [rm, open_for_kind, hneB, hu, hp, ht]
  · -- existsOp
    refine ⟨joinShare conn.shareStr (trimBothSeps rel), probeArgs, ?_, hjB⟩
    simp [existsOp, hneB, hu, hp]
  · -- file_stats
    obtain ⟨t, ht⟩ := hc (joinShare conn.shareStr (trimBothSeps rel)) probeArgs
    refine ⟨joinShare conn.shareStr (trimBothSeps rel), probeArgs, ?_, hjB⟩
    rcases t with _ | _ | _
    · obtain ⟨t2, ht2⟩ := hc (joinShare conn.shareStr (trimBothSeps rel)) (statsOpenArgs .file)
      simp [file_stats, open_for_kind, hneB, hu, hp, ht, ht2]
    · obtain ⟨t2, ht2⟩ := hc (joinShare conn.shareStr (trimBothSeps rel)) (statsOpenArgs .dir)
      simp [file_stats, open_for_kind, hneB, hu, hp, ht, ht2]
    · simp [file_stats, open_for_kind, hneB, hu, hp, ht]
  · -- rename (source and destination both `rel`)
    obtain ⟨t, ht⟩ := hc (joinShare conn.shareStr (trimBothSeps rel)) renameFileArgs
    refine ⟨joinShare conn.shareStr (trimBothSeps rel), renameFileArgs, ?_, hjB⟩
    rcases t with _ | _ | _
    · simp [rename, hneB, hu, hp, ht]
      split <;> simp
    · simp [rename, hneB, hu, hp, ht]
    · simp [rename, hneB, hu, hp, ht]

/-- Witness for claim C1 (amended) on the path `a/../b`: `mkdir_p` fails with
the bad-segment error while `read_file` issues an open request for a path
still containing `..`. -/
theorem claim_C1_witness :
    strHasDD (trimBothSeps "a/../b") = true ∧
    (mkdir_p connAllFiles "a/../b").1 =
      Except.error (NifError.term "bad_segment: \x27..\x27") ∧
    (∃ p a, Event.createFile p a ∈ (read_file connAllFiles "a/../b").2 ∧
      strHasDD p = true) :=
  ⟨by decide,
   (claim_C1_amended connAllFiles "a/../b" [] false rfl (fun _ => rfl)
      (fun p a => ⟨.file, rfl⟩) (by decide) (by decide) (by decide)).1,
   (claim_C1_amended connAllFiles "a/../b" [] false rfl (fun _ => rfl)
      (fun p a => ⟨.file, rfl⟩) (by decide) (by decide) (by decide)).2.1⟩

end Rumbex

